import Mathlib

/-!
Verification of the `AdjustmentEntry` controller
(`erpnext/accounts/doctype/adjustment_entry/adjustment_entry.py`).

Shallow embedding conventions:
* Monetary values and exchange rates are exact rationals (`ℚ`).  The framework
  utility `frappe.utils.flt` is modelled as the exact coercion: `flt None = 0`
  (Python `flt(None)`/`flt("")` is `0.0`); the optional precision argument is
  field metadata owned by the external framework (out of the spec's scope) and
  is modelled as exact, i.e. no rounding.
* Fields that Python may hold as `None` or the empty string are `Option`-typed;
  `none` covers both `None` and `""` (both are falsy and both are `flt`-zero).
* Framework services (`frappe.db.get_value`, `get_outstanding_invoices`,
  `get_exchange_rate`, `get_company_defaults`, `frappe.get_doc`) are modelled
  as an explicit environment `Env` of oracles.
* `frappe.throw` raises `ValidationError` (or the subclass passed to it); the
  stateful methods that can throw are embedded as `Except AdjError _`.
  Posting to the general ledger (`erpnext.accounts.general_ledger.make_gl_entries`)
  is framework work; the embedding returns the list of ledger entries that
  would be posted.
-/

namespace Erpnext

/-- `frappe.utils.flt` on an optional rational: `None`/empty becomes `0`,
a number is kept exactly (precision rounding is framework metadata, modelled
as exact). -/
def flt : Option ℚ → ℚ
  | none => 0
  | some q => q

/-- Which of the two reference tables a row belongs to (the frappe
`parentfield` of an `Adjustment Entry Reference` child row):
`debit_entries` (customer side) or `credit_entries` (supplier side). -/
inductive Side where
  | debit
  | credit
deriving DecidableEq

/-- One row of the `exchange_rates` child table: a currency together with its
rate to the payment currency and its rate to the base (company) currency. -/
structure ExchangeRateRecord where
  currency : String
  exchange_rate_to_payment_currency : ℚ
  exchange_rate_to_base_currency : ℚ
deriving DecidableEq

/-- One row of the `debit_entries` / `credit_entries` child tables
(`Adjustment Entry Reference`). -/
structure ReferenceEntry where
  voucher_type : String
  voucher_number : String
  voucher_date : Option String
  currency : String
  exchange_rate : ℚ
  cost_center : Option String
  voucher_amount : ℚ
  voucher_base_amount : ℚ
  voucher_payment_amount : ℚ
  payment_exchange_rate : ℚ
  allocated_amount : Option ℚ
  balance : ℚ
  gain_loss_amount : ℚ
  supplier_bill_no : Option String
  supplier_bill_date : Option String
deriving DecidableEq

/-- The `Adjustment Entry` document: parties, currencies, the two reference
tables, the exchange-rate table and the computed summary totals. -/
structure AdjustmentEntry where
  company : Option String
  company_currency : String
  payment_currency : String
  customer : Option String
  supplier : Option String
  customer_account : String
  supplier_account : String
  customer_account_currency : Option String
  supplier_account_currency : Option String
  cost_center : Option String
  allocate_payment_amount : Bool
  debit_entries : List ReferenceEntry
  credit_entries : List ReferenceEntry
  exchange_rates : List ExchangeRateRecord
  receivable_adjusted : ℚ
  payable_adjusted : ℚ
  total_balance : ℚ
  total_gain_loss : ℚ
  difference_amount : ℚ
deriving DecidableEq

/-- A general-ledger entry (the dict built by `get_gl_dict` and posted by
`erpnext.accounts.general_ledger.make_gl_entries`). -/
structure GLEntry where
  account : String
  party_type : Option String
  party : Option String
  against : Option String
  account_currency : Option String
  cost_center : Option String
  against_voucher_type : Option String
  against_voucher : Option String
  debit : ℚ
  credit : ℚ
  debit_in_account_currency : ℚ
  credit_in_account_currency : ℚ
deriving DecidableEq

/-- The relevant data of a referenced document as returned by
`frappe.get_doc(voucher_type, voucher_number)`. -/
structure RefDoc where
  debit_to : String
  credit_to : String
  docstatus : ℤ
deriving DecidableEq

/-- An outstanding-invoice record as produced by `get_outstanding_invoices` /
`get_negative_outstanding_invoices` after `get_extra_invoice_details` has
attached the exchange rate, currency, cost center and supplier-bill details
(those reads are framework database lookups; the record arrives complete). -/
structure Invoice where
  voucher_type : String
  voucher_no : String
  posting_date : Option String
  outstanding_amount : ℚ
  exchange_rate : Option ℚ
  conversion_rate : Option ℚ
  currency : String
  cost_center : Option String
  supplier_bill_no : Option String
  supplier_bill_date : Option String
deriving DecidableEq

/-- Errors raised through `frappe.throw`: the default `ValidationError`, or
the module's `InvalidAdjustmentEntry` subclass when it is passed explicitly. -/
inductive AdjError where
  | validationError (msg : String)
  | invalidAdjustmentEntry (msg : String)
deriving DecidableEq

/-- The external framework services the controller consults. -/
structure Env where
  /-- `get_company_defaults(company).exchange_gain_loss_account`. -/
  exchange_gain_loss_account : Option String
  /-- `frappe.db.get_value("Account", account, "root_type")`. -/
  account_root_type : String → Option String
  /-- `get_company_defaults(company).cost_center`. -/
  company_cost_center : Option String
  /-- `erpnext.setup.utils.get_exchange_rate(from_currency, to_currency)`;
  `none` when no rate is available. -/
  get_exchange_rate : String → String → Option ℚ
  /-- `frappe.db.exists` / `frappe.get_doc` for a voucher type and number. -/
  ref_doc : String → String → Option RefDoc
  /-- `get_outstanding_invoices` (outstanding amount greater than zero) for
  the customer (`Side.debit`) or supplier (`Side.credit`) party account. -/
  positive_outstanding : Side → List Invoice
  /-- `get_negative_outstanding_invoices` for the two party accounts. -/
  negative_outstanding : Side → List Invoice

/-- Party details assembled by `get_party_details` plus the party account
fields of the document (`customer_account` / `supplier_account` and their
currencies). -/
structure PartyDetails where
  party_type : String
  party : Option String
  account : String
  account_currency : Option String
deriving DecidableEq

/-- `get_party_details` together with the party account lookups: the
customer data for `debit_entries`, the supplier data for `credit_entries`. -/
def party_details (doc : AdjustmentEntry) : Side → PartyDetails
  | Side.debit => ⟨"Customer", doc.customer, doc.customer_account, doc.customer_account_currency⟩
  | Side.credit => ⟨"Supplier", doc.supplier, doc.supplier_account, doc.supplier_account_currency⟩

/-- Replace one of the two reference tables (`self.set(field_name, ...)`). -/
def set_side (side : Side) (entries : List ReferenceEntry) (doc : AdjustmentEntry) :
    AdjustmentEntry :=
  match side with
  | Side.debit => { doc with debit_entries := entries }
  | Side.credit => { doc with credit_entries := entries }

/-- Look up a currency in the `exchange_rates` table
(`exchange_rates_to_dict`); a missing currency defaults to rates of `1`
(the table is always populated with every currency in use before lookups). -/
def find_rate (rates : List ExchangeRateRecord) (c : String) : ExchangeRateRecord :=
  (rates.find? (fun r => r.currency == c)).getD ⟨c, 1, 1⟩

/-- Modelled from the spec: the child-doctype method
`AdjustmentEntryReference.recalculate_amounts(payment_currency, exchange_rates)`
is not among the sources; only its call sites are.  The spec describes a
Reference Entry as carrying a voucher amount, allocated amount, balance and
gain/loss, and requires the module to compute the currency-exchange gain/loss
producing balanced ledger postings.  Accordingly the derived fields are
modelled as: `payment_exchange_rate` is the row currency's rate to the payment
currency; `voucher_payment_amount` is the voucher amount converted into the
payment currency; `balance` is the outstanding amount in company currency; and
`gain_loss_amount` is the allocated amount valued at the current rates minus
its value at the voucher's historical exchange rate, signed by the row's side
so that a positive total gain/loss is a net exchange gain. -/
def recalculate_amounts (side : Side) (payment_currency : String)
    (rates : List ExchangeRateRecord) (ent : ReferenceEntry) : ReferenceEntry :=
  let p := (find_rate rates ent.currency).exchange_rate_to_payment_currency
  let pb := (find_rate rates payment_currency).exchange_rate_to_base_currency
  let a := flt ent.allocated_amount
  { ent with
    payment_exchange_rate := p
    voucher_payment_amount := ent.voucher_amount * p
    balance := ent.voucher_base_amount
    gain_loss_amount :=
      match side with
      | Side.debit => a * pb - a / p * ent.exchange_rate
      | Side.credit => a / p * ent.exchange_rate - a * pb }

/-- `calculate_summary_totals`: the five summary fields recomputed from the
two reference tables. -/
def calculate_summary_totals (doc : AdjustmentEntry) : AdjustmentEntry :=
  let ra := (doc.debit_entries.map (fun d => flt d.allocated_amount)).sum
  let pa := (doc.credit_entries.map (fun d => flt d.allocated_amount)).sum
  let tb := |(doc.debit_entries.map (fun d => d.balance)).sum -
      (doc.credit_entries.map (fun d => d.balance)).sum|
  let tgl := (doc.debit_entries.map (fun d => d.gain_loss_amount)).sum +
      (doc.credit_entries.map (fun d => d.gain_loss_amount)).sum
  { doc with
    receivable_adjusted := ra
    payable_adjusted := pa
    total_balance := tb
    total_gain_loss := tgl
    difference_amount := |ra - pa| }

/-- `validate_customer_supplier_account`: with both parties set, the two
account currencies must agree; otherwise a set customer account currency
(the code's `customer_supplier_currency` alias) must match the payment
currency or the company currency.  Both violations raise
`InvalidAdjustmentEntry`. -/
def validate_customer_supplier_account (doc : AdjustmentEntry) : Except AdjError Unit :=
  if doc.customer.isSome ∧ doc.supplier.isSome ∧
      doc.customer_account_currency ≠ doc.supplier_account_currency then
    Except.error (AdjError.invalidAdjustmentEntry
      "Customer account currency and supplier account currency should be same")
  else if doc.customer_account_currency.isSome ∧
      doc.customer_account_currency ≠ some doc.payment_currency ∧
      some doc.company_currency ≠ doc.customer_account_currency then
    Except.error (AdjError.invalidAdjustmentEntry
      "Payment currency should be same as Customer/Supplier account currency")
  else
    Except.ok ()

/-- The per-row checks of `validate_reference_documents`: the voucher type
whitelist, existence and party-account consistency of the referenced
document, its submitted status, and the allocated-amount bound. -/
def reference_row_check (env : Env) (doc : AdjustmentEntry) (e : ReferenceEntry) :
    Except AdjError Unit :=
  if e.voucher_type ∉ ["Sales Invoice", "Purchase Invoice", "Journal Entry"] then
    Except.error (AdjError.validationError "Reference Doctype must be one of Sales Invoice, Purchase Invoice or Journal Entry")
  else
    match env.ref_doc e.voucher_type e.voucher_number with
    | none => Except.error (AdjError.validationError "Referenced document does not exist")
    | some rd =>
      if e.voucher_type = "Sales Invoice" ∧ rd.debit_to ≠ doc.customer_account then
        Except.error (AdjError.validationError "Sales Invoice is associated with another Party Account")
      else if e.voucher_type = "Purchase Invoice" ∧ rd.credit_to ≠ doc.supplier_account then
        Except.error (AdjError.validationError "Purchase Invoice is associated with another Party Account")
      else if rd.docstatus ≠ 1 then
        Except.error (AdjError.validationError "Referenced document must be submitted")
      else if 0 < flt e.allocated_amount ∧ e.voucher_payment_amount < flt e.allocated_amount then
        Except.error (AdjError.validationError "Allocated Amount cannot be greater than outstanding amount.")
      else
        Except.ok ()

/-- The loop of `validate_reference_documents` over
`self.debit_entries + self.credit_entries`. -/
def validate_reference_rows (env : Env) (doc : AdjustmentEntry) :
    List ReferenceEntry → Except AdjError Unit
  | [] => Except.ok ()
  | e :: rest =>
    match reference_row_check env doc e with
    | Except.error err => Except.error err
    | Except.ok _ => validate_reference_rows env doc rest

/-- `validate_reference_documents`. -/
def validate_reference_documents (env : Env) (doc : AdjustmentEntry) :
    Except AdjError Unit :=
  validate_reference_rows env doc (doc.debit_entries ++ doc.credit_entries)

/-- `clear_unallocated_reference_document_rows`: keep only the reference rows
whose `allocated_amount` is not in `[0, None, ""]` (the companion SQL delete
acts on the database, not on the in-memory document). -/
def clear_unallocated_reference_document_rows (doc : AdjustmentEntry) : AdjustmentEntry :=
  { doc with
    debit_entries := doc.debit_entries.filter
      (fun e => decide (¬ (e.allocated_amount = some 0 ∨ e.allocated_amount = none)))
    credit_entries := doc.credit_entries.filter
      (fun e => decide (¬ (e.allocated_amount = some 0 ∨ e.allocated_amount = none))) }

/-- `validate`: party-account check, reference-document checks, then removal
of unallocated rows; the result is the document the framework saves. -/
def validate (env : Env) (doc : AdjustmentEntry) : Except AdjError AdjustmentEntry :=
  match validate_customer_supplier_account doc with
  | Except.error err => Except.error err
  | Except.ok _ =>
    match validate_reference_documents env doc with
    | Except.error err => Except.error err
    | Except.ok _ => Except.ok (clear_unallocated_reference_document_rows doc)

/-- Python's `get_exchange_rate(a, b) or 1`: a missing (or zero, hence falsy)
rate defaults to `1`. -/
def rate_or_one (r : Option ℚ) : ℚ :=
  match r with
  | none => 1
  | some q => if q = 0 then 1 else q

/-- `add_invoice_currency_exchange_rate`: appends a record for the currency
with its two rates unless the currency is already present. -/
def add_invoice_currency_exchange_rate (env : Env) (currency : String)
    (doc : AdjustmentEntry) : AdjustmentEntry :=
  if doc.exchange_rates.any (fun r => r.currency == currency) then doc
  else
    { doc with
      exchange_rates := doc.exchange_rates ++
        [⟨currency,
          rate_or_one (env.get_exchange_rate currency doc.payment_currency),
          rate_or_one (env.get_exchange_rate currency doc.company_currency)⟩] }

/-- `get_exchange_rates(entries)`: the distinct currencies of the entries
(Python's `list(set(...))`), the payment currency appended when missing, the
table reset and rebuilt one currency at a time. -/
def get_exchange_rates (env : Env) (entries : List Invoice) (doc : AdjustmentEntry) :
    AdjustmentEntry :=
  let currencies := (entries.map (fun e => e.currency)).dedup
  let currencies :=
    if doc.payment_currency ∈ currencies then currencies
    else currencies ++ [doc.payment_currency]
  currencies.foldl (fun d c => add_invoice_currency_exchange_rate env c d)
    { doc with exchange_rates := [] }

/-- Python's `invoice.get('exchange_rate') or invoice.get('conversion_rate')`:
a falsy (`None` or `0`) exchange rate falls back to the conversion rate
(`None` there is modelled as `0`; the Python code would fault on later
arithmetic in that degenerate case). -/
def effective_exchange_rate (invoice : Invoice) : ℚ :=
  if flt invoice.exchange_rate ≠ 0 then flt invoice.exchange_rate
  else flt invoice.conversion_rate

/-- `set_reference_entry_details`: copies the invoice data onto the reference
row, derives `voucher_amount` / `voucher_base_amount` from the outstanding
amount depending on whether the party account is in a foreign currency, and
recalculates the derived amounts. -/
def set_reference_entry_details (doc : AdjustmentEntry) (side : Side)
    (party_account_currency : Option String) (rates : List ExchangeRateRecord)
    (ent : ReferenceEntry) (invoice : Invoice) : ReferenceEntry :=
  let er := effective_exchange_rate invoice
  let ent := { ent with
    voucher_date := invoice.posting_date
    currency := invoice.currency
    exchange_rate := er
    cost_center := invoice.cost_center }
  let ent :=
    if party_account_currency ≠ some doc.company_currency then
      { ent with
        voucher_base_amount := |invoice.outstanding_amount * er|
        voucher_amount := |invoice.outstanding_amount| }
    else
      { ent with
        voucher_base_amount := |invoice.outstanding_amount|
        voucher_amount := abs (|invoice.outstanding_amount| / er) }
  let ent := recalculate_amounts side doc.payment_currency rates ent
  { ent with
    supplier_bill_no := invoice.supplier_bill_no
    supplier_bill_date := invoice.supplier_bill_date }

/-- A freshly appended reference row carrying only the voucher type and
number (`self.append(field_name, {...})`); the other fields start unset. -/
def blank_reference (vt vn : String) : ReferenceEntry :=
  ⟨vt, vn, none, "", 0, none, 0, 0, 0, 0, none, 0, 0, none, none⟩

/-- `add_invoice_entries(invoices, field_name)`: rebuilds one reference table
from the given invoices. -/
def add_invoice_entries (doc : AdjustmentEntry) (invoices : List Invoice)
    (side : Side) : AdjustmentEntry :=
  let rates := doc.exchange_rates
  let pac := (party_details doc side).account_currency
  set_side side
    (invoices.map (fun inv =>
      set_reference_entry_details doc side pac rates
        (blank_reference inv.voucher_type inv.voucher_no) inv))
    doc

/-- `get_entries`: fetch the four outstanding-invoice lists, compute the
exchange rates of every fetched currency, then populate the two reference
tables (sales invoices and debit notes on the debit side, purchase invoices
and credit notes on the credit side). -/
def get_entries (env : Env) (doc : AdjustmentEntry) : AdjustmentEntry :=
  let sales_invoices := env.positive_outstanding Side.debit
  let credit_notes := env.negative_outstanding Side.debit
  let purchase_invoices := env.positive_outstanding Side.credit
  let debit_notes := env.negative_outstanding Side.credit
  let doc := get_exchange_rates env
    (sales_invoices ++ purchase_invoices ++ credit_notes ++ debit_notes) doc
  let doc := add_invoice_entries doc (sales_invoices ++ debit_notes) Side.debit
  add_invoice_entries doc (purchase_invoices ++ credit_notes) Side.credit

/-- `check_mandatory_to_fetch`: company, customer and supplier must be set. -/
def check_mandatory_to_fetch (doc : AdjustmentEntry) : Except AdjError Unit :=
  if doc.company = none then
    Except.error (AdjError.validationError "Please select Company first")
  else if doc.customer = none then
    Except.error (AdjError.validationError "Please select Customer first")
  else if doc.supplier = none then
    Except.error (AdjError.validationError "Please select Supplier first")
  else
    Except.ok ()

/-- `get_unreconciled_entries`: clear the allocation flag, check the
mandatory fields, fetch and populate the entries, compute the totals. -/
def get_unreconciled_entries (env : Env) (doc : AdjustmentEntry) :
    Except AdjError AdjustmentEntry :=
  let doc := { doc with allocate_payment_amount := false }
  match check_mandatory_to_fetch doc with
  | Except.error err => Except.error err
  | Except.ok _ => Except.ok (calculate_summary_totals (get_entries env doc))

/-- The pipeline assembled from the spec's words, for comparison with the
code path: fetch the outstanding entries, compute the exchange rates of all
fetched currencies, populate the reference tables, compute the summary
totals. -/
def pipeline_spec (env : Env) (doc : AdjustmentEntry) : AdjustmentEntry :=
  let stage_fetch_debit := env.positive_outstanding Side.debit ++ env.negative_outstanding Side.credit
  let stage_fetch_credit := env.positive_outstanding Side.credit ++ env.negative_outstanding Side.debit
  let stage_rates := get_exchange_rates env
    (env.positive_outstanding Side.debit ++ env.positive_outstanding Side.credit ++
      env.negative_outstanding Side.debit ++ env.negative_outstanding Side.credit) doc
  let stage_populate :=
    add_invoice_entries (add_invoice_entries stage_rates stage_fetch_debit Side.debit)
      stage_fetch_credit Side.credit
  calculate_summary_totals stage_populate

/-- The body of the allocation loop of `allocate_amount_to_references` over
one reference table: each row receives the remaining amount capped by its own
`voucher_payment_amount` (nothing once the remainder is exhausted, nothing at
all when `allocate_payment_amount` is off), and its derived amounts are
recalculated; the remainder decreases by the allocation.  Returns the updated
rows and the final remainder. -/
def allocate_rows (apa : Bool) (side : Side) (payment_currency : String)
    (rates : List ExchangeRateRecord) :
    ℚ → List ReferenceEntry → List ReferenceEntry × ℚ
  | rem, [] => ([], rem)
  | rem, ent :: rest =>
    let alloc : ℚ :=
      if apa then
        if rem > 0 then
          if ent.voucher_payment_amount ≥ rem then rem else ent.voucher_payment_amount
        else 0
      else 0
    let ent := recalculate_amounts side payment_currency rates
      { ent with allocated_amount := some alloc }
    let rem := if apa then rem - alloc else rem
    let step := allocate_rows apa side payment_currency rates rem rest
    (ent :: step.1, step.2)

/-- `allocate_amount_to_references`: both reference tables are allocated
against `min(total_debit_outstanding, total_credit_outstanding)` and the
summary totals recomputed.  The source iterates the two tables in an order
depending on which total is larger, but each table's loop starts afresh from
the same minimum and the tables are disjoint, so the iteration order does not
affect the resulting document. -/
def allocate_amount_to_references (doc : AdjustmentEntry) : AdjustmentEntry :=
  let total_debit_outstanding :=
    (doc.debit_entries.map (fun d => d.voucher_payment_amount)).sum
  let total_credit_outstanding :=
    (doc.credit_entries.map (fun c => c.voucher_payment_amount)).sum
  let m := min total_debit_outstanding total_credit_outstanding
  let de := (allocate_rows doc.allocate_payment_amount Side.debit
    doc.payment_currency doc.exchange_rates m doc.debit_entries).1
  let ce := (allocate_rows doc.allocate_payment_amount Side.credit
    doc.payment_currency doc.exchange_rates m doc.credit_entries).1
  calculate_summary_totals { doc with debit_entries := de, credit_entries := ce }

/-- The ledger entry built for one reference row by the loop of
`add_party_gl_entries`: the party account of the row's ledger side (overridden
by the voucher type for invoices), posted against the opposite party account;
debit rows post on the credit side and credit rows on the debit side; the
amount in company currency converts the allocated amount (payment currency)
through the row's rates. -/
def party_gl (doc : AdjustmentEntry) (side : Side) (ent : ReferenceEntry) : GLEntry :=
  let ledger_side :=
    if ent.voucher_type = "Purchase Invoice" then Side.credit
    else if ent.voucher_type = "Sales Invoice" then Side.debit
    else side
  let pd := party_details doc ledger_side
  let against :=
    if ledger_side = Side.debit then (party_details doc Side.credit).account
    else (party_details doc Side.debit).account
  let allocated_amount_in_entry_currency := flt ent.allocated_amount / ent.payment_exchange_rate
  let allocated_amount_in_company_currency := allocated_amount_in_entry_currency * ent.exchange_rate
  let allocated_amount_in_account_currency :=
    if pd.account_currency ≠ some doc.company_currency then
      flt ent.allocated_amount * ent.payment_exchange_rate
    else allocated_amount_in_company_currency
  let base : GLEntry :=
    ⟨pd.account, some pd.party_type, pd.party, some against, pd.account_currency,
      ent.cost_center.or doc.cost_center, some ent.voucher_type, some ent.voucher_number,
      0, 0, 0, 0⟩
  match side with
  | Side.debit =>
    { base with
      credit := allocated_amount_in_company_currency
      credit_in_account_currency := allocated_amount_in_account_currency }
  | Side.credit =>
    { base with
      debit := allocated_amount_in_company_currency
      debit_in_account_currency := allocated_amount_in_account_currency }

/-- `add_party_gl_entries(gl_entries)`: one ledger entry per reference row,
debit table first. -/
def add_party_gl_entries (doc : AdjustmentEntry) (gl_entries : List GLEntry) :
    List GLEntry :=
  gl_entries ++ doc.debit_entries.map (party_gl doc Side.debit) ++
    doc.credit_entries.map (party_gl doc Side.credit)

/-- The `get_gl_dict` skeleton of the gain/loss ledger entry: the configured
account in company currency, the document's cost center defaulting to the
company's. -/
def gain_loss_gl_base (env : Env) (doc : AdjustmentEntry) (acct : String) : GLEntry :=
  ⟨acct, none, none, none, some doc.company_currency,
    doc.cost_center.or env.company_cost_center, none, none, 0, 0, 0, 0⟩

/-- The gain/loss ledger entry built by `add_gain_loss_entries`: the absolute
total gain/loss posted on the side determined by the account's root type and
the sign of the total. -/
def gain_loss_gl (env : Env) (doc : AdjustmentEntry) (acct : String) : GLEntry :=
  if env.account_root_type acct = some "Expense" then
    if doc.total_gain_loss > 0 then
      { gain_loss_gl_base env doc acct with
        credit := |doc.total_gain_loss|
        credit_in_account_currency := |doc.total_gain_loss| }
    else
      { gain_loss_gl_base env doc acct with
        debit := |doc.total_gain_loss|
        debit_in_account_currency := |doc.total_gain_loss| }
  else
    if doc.total_gain_loss > 0 then
      { gain_loss_gl_base env doc acct with
        debit := |doc.total_gain_loss|
        debit_in_account_currency := |doc.total_gain_loss| }
    else
      { gain_loss_gl_base env doc acct with
        credit := |doc.total_gain_loss|
        credit_in_account_currency := |doc.total_gain_loss| }

/-- `add_gain_loss_entries(gl_entries)`: requires the company's exchange
gain/loss account; appends the gain/loss ledger entry. -/
def add_gain_loss_entries (env : Env) (doc : AdjustmentEntry)
    (gl_entries : List GLEntry) : Except AdjError (List GLEntry) :=
  match env.exchange_gain_loss_account with
  | none => Except.error (AdjError.validationError "Exchange gain loss account not set")
  | some acct => Except.ok (gl_entries ++ [gain_loss_gl env doc acct])

/-- `make_gl_entries`: the party entries followed by the gain/loss entry; the
returned list is what would be handed to the general-ledger framework. -/
def make_gl_entries (env : Env) (doc : AdjustmentEntry) :
    Except AdjError (List GLEntry) :=
  add_gain_loss_entries env doc (add_party_gl_entries doc [])

/-- `on_submit`: a nonzero `difference_amount` aborts the submission before
any ledger entry is produced; otherwise the ledger entries are made. -/
def on_submit (env : Env) (doc : AdjustmentEntry) : Except AdjError (List GLEntry) :=
  if doc.difference_amount ≠ 0 then
    Except.error (AdjError.validationError "Difference Amount must be zero")
  else
    make_gl_entries env doc

/-- Sum of the company-currency debit column of a ledger-entry list. -/
def gl_debit_total (l : List GLEntry) : ℚ := (l.map (fun e => e.debit)).sum

/-- Sum of the company-currency credit column of a ledger-entry list. -/
def gl_credit_total (l : List GLEntry) : ℚ := (l.map (fun e => e.credit)).sum

/-- A document whose reference rows all agree with the (spec-modelled)
`recalculate_amounts` at the document's own exchange-rate table: the state
the pipeline leaves every row in. -/
def RecalcCoherent (doc : AdjustmentEntry) : Prop :=
  (∀ e ∈ doc.debit_entries,
    e = recalculate_amounts Side.debit doc.payment_currency doc.exchange_rates e) ∧
  (∀ e ∈ doc.credit_entries,
    e = recalculate_amounts Side.credit doc.payment_currency doc.exchange_rates e)

/-! Concrete sample data used to evaluate the theorems on closed inputs. -/

/-- A concrete single-currency adjustment document with empty tables. -/
def base_doc : AdjustmentEntry :=
  { company := some "Shipmnts"
    company_currency := "INR"
    payment_currency := "INR"
    customer := some "CUST-0001"
    supplier := some "SUPP-0001"
    customer_account := "Debtors"
    supplier_account := "Creditors"
    customer_account_currency := some "INR"
    supplier_account_currency := some "INR"
    cost_center := none
    allocate_payment_amount := false
    debit_entries := []
    credit_entries := []
    exchange_rates := []
    receivable_adjusted := 0
    payable_adjusted := 0
    total_balance := 0
    total_gain_loss := 0
    difference_amount := 0 }

/-- A concrete environment: a configured expense-type gain/loss account, no
external exchange rates, every referenced document submitted on the expected
party accounts, no outstanding invoices. -/
def base_env : Env :=
  { exchange_gain_loss_account := some "Exchange Gain Loss"
    account_root_type := fun _ => some "Expense"
    company_cost_center := none
    get_exchange_rate := fun _ _ => none
    ref_doc := fun _ _ => some ⟨"Debtors", "Creditors", 1⟩
    positive_outstanding := fun _ => []
    negative_outstanding := fun _ => [] }

/-- A concrete reference row with every amount zero. -/
def base_ref : ReferenceEntry := blank_reference "Journal Entry" "JV-0001"

/-- Debit row of the balanced concrete document: 50 of 100 allocated at
unit rates, no exchange difference. -/
def c1w_debit : ReferenceEntry :=
  { base_ref with
    currency := "INR", exchange_rate := 1, voucher_amount := 100,
    voucher_base_amount := 100, voucher_payment_amount := 100,
    payment_exchange_rate := 1, allocated_amount := some 50,
    balance := 100, gain_loss_amount := 0 }

/-- Credit row of the balanced concrete document. -/
def c1w_credit : ReferenceEntry :=
  { base_ref with
    currency := "INR", exchange_rate := 1, voucher_amount := 100,
    voucher_base_amount := 100, voucher_payment_amount := 100,
    payment_exchange_rate := 1, allocated_amount := some 50,
    balance := 100, gain_loss_amount := 0 }

/-- A fully recalculated document with equal allocations on both sides. -/
def c1w_doc : AdjustmentEntry :=
  { base_doc with
    debit_entries := [c1w_debit], credit_entries := [c1w_credit],
    receivable_adjusted := 50, payable_adjusted := 50,
    total_balance := 0, total_gain_loss := 0, difference_amount := 0 }

/-- Exchange-rate table of the unbalanced concrete document: USD is
currently worth 2, the base currency 1. -/
def c1x_rates : List ExchangeRateRecord := [⟨"USD", 2, 2⟩, ⟨"INR", 1, 1⟩]

/-- Debit row booked at a historical USD rate of 1 while the current rate
is 2: allocating 100 produces an exchange gain of 50. -/
def c1x_debit : ReferenceEntry :=
  { base_ref with
    currency := "USD", exchange_rate := 1, voucher_amount := 60,
    voucher_base_amount := 60, voucher_payment_amount := 120,
    payment_exchange_rate := 2, allocated_amount := some 100,
    balance := 60, gain_loss_amount := 50 }

/-- Credit row of the unbalanced concrete document, in the base currency. -/
def c1x_credit : ReferenceEntry :=
  { base_ref with
    currency := "INR", exchange_rate := 1, voucher_amount := 150,
    voucher_base_amount := 150, voucher_payment_amount := 150,
    payment_exchange_rate := 1, allocated_amount := some 100,
    balance := 150, gain_loss_amount := 0 }

/-- A fully recalculated document with zero difference amount but a nonzero
total gain/loss. -/
def c1x_doc : AdjustmentEntry :=
  { base_doc with
    debit_entries := [c1x_debit], credit_entries := [c1x_credit],
    exchange_rates := c1x_rates,
    receivable_adjusted := 100, payable_adjusted := 100,
    total_balance := 90, total_gain_loss := 50, difference_amount := 0 }

/-- The environment whose exchange gain/loss account is not an expense
account. -/
def c1x_env : Env := { base_env with account_root_type := fun _ => some "Income" }

/-- An environment without a configured exchange gain/loss account. -/
def c2x_env : Env := { base_env with exchange_gain_loss_account := none }

/-- First debit row for the allocation sample: 5 outstanding. -/
def c3w_d1 : ReferenceEntry := { base_ref with voucher_payment_amount := 5 }

/-- Second debit row for the allocation sample: 7 outstanding. -/
def c3w_d2 : ReferenceEntry := { base_ref with voucher_payment_amount := 7 }

/-- Credit row for the allocation sample: 4 outstanding. -/
def c3w_c1 : ReferenceEntry := { base_ref with voucher_payment_amount := 4 }

/-- Allocation sample: 12 outstanding on the debit side against 4 on the
credit side, with `allocate_payment_amount` switched on. -/
def c3w_doc : AdjustmentEntry :=
  { base_doc with
    allocate_payment_amount := true,
    debit_entries := [c3w_d1, c3w_d2], credit_entries := [c3w_c1] }

/-- An exchange-rate table already containing USD. -/
def c6w_doc : AdjustmentEntry := { base_doc with exchange_rates := [⟨"USD", 3, 4⟩] }

/-- An invoice with a negative outstanding amount and exchange rate 3. -/
def c8w_inv : Invoice :=
  ⟨"Sales Invoice", "SI-0001", none, -7, some 3, none, "USD", none, none, none⟩

/-- A reference row whose allocated amount exceeds its outstanding payment
amount. -/
def c9w_bad : ReferenceEntry :=
  { base_ref with allocated_amount := some 10, voucher_payment_amount := 5 }

/-- A document carrying the over-allocated row. -/
def c9w_doc : AdjustmentEntry := { base_doc with debit_entries := [c9w_bad] }

/-- A document whose customer and supplier account currencies differ. -/
def c10w_doc : AdjustmentEntry := { base_doc with customer_account_currency := some "USD" }

/-! Helper lemmas. -/

/-- Recalculation keeps the allocated amount. -/
theorem recalculate_amounts_allocated (side : Side) (pc : String)
    (rates : List ExchangeRateRecord) (e : ReferenceEntry) :
    (recalculate_amounts side pc rates e).allocated_amount = e.allocated_amount := rfl

/-- Recalculation keeps the voucher amount. -/
theorem recalculate_amounts_voucher_amount (side : Side) (pc : String)
    (rates : List ExchangeRateRecord) (e : ReferenceEntry) :
    (recalculate_amounts side pc rates e).voucher_amount = e.voucher_amount := rfl

/-- Recalculation keeps the voucher base amount. -/
theorem recalculate_amounts_voucher_base_amount (side : Side) (pc : String)
    (rates : List ExchangeRateRecord) (e : ReferenceEntry) :
    (recalculate_amounts side pc rates e).voucher_base_amount = e.voucher_base_amount := rfl

/-- Recalculation keeps the historical exchange rate. -/
theorem recalculate_amounts_exchange_rate (side : Side) (pc : String)
    (rates : List ExchangeRateRecord) (e : ReferenceEntry) :
    (recalculate_amounts side pc rates e).exchange_rate = e.exchange_rate := rfl

/-- Summing a pointwise-equal map gives the same total. -/
theorem erp_sum_map_congr {α : Type} (l : List α) (f g : α → ℚ)
    (h : ∀ a ∈ l, f a = g a) : (l.map f).sum = (l.map g).sum := by
  induction l with
  | nil => rfl
  | cons a t ih =>
    simp only [List.map_cons, List.sum_cons]
    rw [h a (List.mem_cons_self a t), ih (fun b hb => h b (List.mem_cons_of_mem a hb))]

/-- Sums distribute over pointwise subtraction. -/
theorem erp_sum_map_sub {α : Type} (l : List α) (f g : α → ℚ) :
    (l.map (fun e => f e - g e)).sum = (l.map f).sum - (l.map g).sum := by
  induction l with
  | nil => simp
  | cons a t ih => simp only [List.map_cons, List.sum_cons, ih]; ring

/-- A constant right factor moves out of a sum. -/
theorem erp_sum_map_mulr {α : Type} (l : List α) (f : α → ℚ) (c : ℚ) :
    (l.map (fun e => f e * c)).sum = (l.map f).sum * c := by
  induction l with
  | nil => simp
  | cons a t ih => simp only [List.map_cons, List.sum_cons, ih]; ring

/-- A list of zeros sums to zero. -/
theorem erp_sum_map_zero {α : Type} (l : List α) :
    (l.map (fun _ => (0 : ℚ))).sum = 0 := by
  induction l with
  | nil => rfl
  | cons a t ih => simp [ih]

/-- Claim C4: after `calculate_summary_totals`, `receivable_adjusted` is the
sum of the allocated amounts over the debit entries, `payable_adjusted` the
sum over the credit entries, `total_balance` the absolute difference of the
two balance totals, `total_gain_loss` the sum of the gain/loss amounts over
both tables, and `difference_amount` the absolute difference of the adjusted
totals; `total_balance` and `difference_amount` are nonnegative. -/
theorem c4_calculate_summary_totals (doc : AdjustmentEntry) :
    let d := calculate_summary_totals doc
    d.receivable_adjusted = (doc.debit_entries.map (fun e => flt e.allocated_amount)).sum ∧
    d.payable_adjusted = (doc.credit_entries.map (fun e => flt e.allocated_amount)).sum ∧
    d.total_balance = |(doc.debit_entries.map (fun e => e.balance)).sum -
      (doc.credit_entries.map (fun e => e.balance)).sum| ∧
    d.total_gain_loss = (doc.debit_entries.map (fun e => e.gain_loss_amount)).sum +
      (doc.credit_entries.map (fun e => e.gain_loss_amount)).sum ∧
    d.difference_amount = |d.receivable_adjusted - d.payable_adjusted| ∧
    0 ≤ d.total_balance ∧ 0 ≤ d.difference_amount :=
  ⟨rfl, rfl, rfl, rfl, rfl, abs_nonneg _, abs_nonneg _⟩

/-- Claim C10: `validate_customer_supplier_account` raises
`InvalidAdjustmentEntry` when both parties are set with differing account
currencies; otherwise it raises `InvalidAdjustmentEntry` when the customer
account currency is set but differs from both the payment currency and the
company currency; when neither condition holds it succeeds. -/
theorem c10_validate_customer_supplier_account (doc : AdjustmentEntry) :
    ((doc.customer.isSome ∧ doc.supplier.isSome ∧
        doc.customer_account_currency ≠ doc.supplier_account_currency) →
      ∃ m, validate_customer_supplier_account doc =
        Except.error (AdjError.invalidAdjustmentEntry m)) ∧
    (¬ (doc.customer.isSome ∧ doc.supplier.isSome ∧
        doc.customer_account_currency ≠ doc.supplier_account_currency) →
      (doc.customer_account_currency.isSome ∧
        doc.customer_account_currency ≠ some doc.payment_currency ∧
        some doc.company_currency ≠ doc.customer_account_currency) →
      ∃ m, validate_customer_supplier_account doc =
        Except.error (AdjError.invalidAdjustmentEntry m)) ∧
    (¬ (doc.customer.isSome ∧ doc.supplier.isSome ∧
        doc.customer_account_currency ≠ doc.supplier_account_currency) →
      ¬ (doc.customer_account_currency.isSome ∧
        doc.customer_account_currency ≠ some doc.payment_currency ∧
        some doc.company_currency ≠ doc.customer_account_currency) →
      validate_customer_supplier_account doc = Except.ok ()) := by
  refine ⟨fun h1 => ?_, fun h1 h2 => ?_, fun h1 h2 => ?_⟩
  · unfold validate_customer_supplier_account
    rw [if_pos h1]
    exact ⟨_, rfl⟩
  · unfold validate_customer_supplier_account
    rw [if_neg h1, if_pos h2]
    exact ⟨_, rfl⟩
  · unfold validate_customer_supplier_account
    rw [if_neg h1, if_neg h2]

/-- Witness for C10 on the document with differing party account
currencies. -/
theorem c10_witness :
    (c10w_doc.customer.isSome ∧ c10w_doc.supplier.isSome ∧
      c10w_doc.customer_account_currency ≠ c10w_doc.supplier_account_currency) ∧
    ∃ m, validate_customer_supplier_account c10w_doc =
      Except.error (AdjError.invalidAdjustmentEntry m) :=
  ⟨by decide, (c10_validate_customer_supplier_account c10w_doc).1 (by decide)⟩

/-- Claim C8: with a positive effective exchange rate,
`set_reference_entry_details` leaves the row with
`voucher_base_amount = voucher_amount * exchange_rate` and both amounts
nonnegative, whatever the sign of the outstanding amount and whichever
branch the party account currency selects. -/
theorem c8_set_reference_entry_details (doc : AdjustmentEntry) (side : Side)
    (pac : Option String) (rates : List ExchangeRateRecord)
    (ent : ReferenceEntry) (invoice : Invoice)
    (h : 0 < effective_exchange_rate invoice) :
    (set_reference_entry_details doc side pac rates ent invoice).voucher_base_amount =
      (set_reference_entry_details doc side pac rates ent invoice).voucher_amount *
        (set_reference_entry_details doc side pac rates ent invoice).exchange_rate ∧
    0 ≤ (set_reference_entry_details doc side pac rates ent invoice).voucher_amount ∧
    0 ≤ (set_reference_entry_details doc side pac rates ent invoice).voucher_base_amount := by
  have hne : effective_exchange_rate invoice ≠ 0 := ne_of_gt h
  by_cases hc : pac = some doc.company_currency
  · simp only [set_reference_entry_details, hc, ne_eq, not_true_eq_false, if_false,
      recalculate_amounts_voucher_base_amount, recalculate_amounts_voucher_amount,
      recalculate_amounts_exchange_rate]
    refine ⟨?_, abs_nonneg _, abs_nonneg _⟩
    rw [abs_div, abs_abs, abs_of_pos h, div_mul_cancel₀ _ hne]
  · simp only [set_reference_entry_details, ne_eq, hc, not_false_eq_true, if_true,
      recalculate_amounts_voucher_base_amount, recalculate_amounts_voucher_amount,
      recalculate_amounts_exchange_rate]
    refine ⟨?_, abs_nonneg _, abs_nonneg _⟩
    rw [abs_mul, abs_of_pos h]

/-- Witness for C8 on an invoice with negative outstanding amount and
exchange rate 3. -/
theorem c8_witness :
    0 < effective_exchange_rate c8w_inv ∧
    ((set_reference_entry_details base_doc Side.debit (some "USD") []
        base_ref c8w_inv).voucher_base_amount =
      (set_reference_entry_details base_doc Side.debit (some "USD") []
        base_ref c8w_inv).voucher_amount *
        (set_reference_entry_details base_doc Side.debit (some "USD") []
          base_ref c8w_inv).exchange_rate ∧
    0 ≤ (set_reference_entry_details base_doc Side.debit (some "USD") []
        base_ref c8w_inv).voucher_amount ∧
    0 ≤ (set_reference_entry_details base_doc Side.debit (some "USD") []
        base_ref c8w_inv).voucher_base_amount) :=
  ⟨by decide,
    c8_set_reference_entry_details base_doc Side.debit (some "USD") []
      base_ref c8w_inv (by decide)⟩

/-- Claim C2 (amended): `on_submit` raises when `difference_amount` is
nonzero; with a zero difference and a configured exchange gain/loss account
it succeeds and emits the ledger entries; whenever it returns entries the
difference was zero (so an error emits nothing, the emission being the `ok`
payload). -/
theorem c2_on_submit (env : Env) (doc : AdjustmentEntry) :
    (doc.difference_amount ≠ 0 →
      on_submit env doc =
        Except.error (AdjError.validationError "Difference Amount must be zero")) ∧
    (doc.difference_amount = 0 → ∀ acct, env.exchange_gain_loss_account = some acct →
      ∃ l, on_submit env doc = Except.ok l) ∧
    (∀ l, on_submit env doc = Except.ok l → doc.difference_amount = 0) := by
  refine ⟨fun h => ?_, fun h acct ha => ?_, fun l hl => ?_⟩
  · unfold on_submit
    rw [if_pos h]
  · unfold on_submit make_gl_entries add_gain_loss_entries
    rw [if_neg (not_not_intro h), ha]
    exact ⟨_, rfl⟩
  · by_cases h : doc.difference_amount = 0
    · exact h
    · exfalso
      unfold on_submit at hl
      rw [if_pos h] at hl
      exact Except.noConfusion hl

/-- Witness for C2 on the balanced document with a configured account. -/
theorem c2_witness :
    base_doc.difference_amount = 0 ∧ ∃ l, on_submit base_env base_doc = Except.ok l :=
  ⟨rfl, (c2_on_submit base_env base_doc).2.1 rfl "Exchange Gain Loss" rfl⟩

/-- Counterexample to claim C2 as stated: with a zero difference amount but
no configured exchange gain/loss account, `on_submit` still raises, so it
does not raise only when the difference amount is nonzero. -/
theorem c2_counterexample :
    base_doc.difference_amount = 0 ∧ ∃ m, on_submit c2x_env base_doc = Except.error m := by
  refine ⟨rfl, ⟨AdjError.validationError "Exchange gain loss account not set", ?_⟩⟩
  rfl

/-- Claim C5: with a configured exchange gain/loss account,
`add_gain_loss_entries` appends exactly one ledger entry on that account,
carrying the absolute total gain/loss in both company and account currency,
credited when the account's root type is Expense and the total is positive
(debited otherwise), and debited when the root type is not Expense and the
total is positive (credited otherwise). -/
theorem c5_add_gain_loss_entries (env : Env) (doc : AdjustmentEntry)
    (gl : List GLEntry) (acct : String)
    (h : env.exchange_gain_loss_account = some acct) :
    ∃ e, add_gain_loss_entries env doc gl = Except.ok (gl ++ [e]) ∧
      e.account = acct ∧
      e.account_currency = some doc.company_currency ∧
      (((env.account_root_type acct = some "Expense" ∧ 0 < doc.total_gain_loss) ∨
        (env.account_root_type acct ≠ some "Expense" ∧ ¬ 0 < doc.total_gain_loss)) →
        e.credit = |doc.total_gain_loss| ∧
        e.credit_in_account_currency = |doc.total_gain_loss| ∧
        e.debit = 0 ∧ e.debit_in_account_currency = 0) ∧
      (((env.account_root_type acct = some "Expense" ∧ ¬ 0 < doc.total_gain_loss) ∨
        (env.account_root_type acct ≠ some "Expense" ∧ 0 < doc.total_gain_loss)) →
        e.debit = |doc.total_gain_loss| ∧
        e.debit_in_account_currency = |doc.total_gain_loss| ∧
        e.credit = 0 ∧ e.credit_in_account_currency = 0) := by
  unfold add_gain_loss_entries
  rw [h]
  refine ⟨_, rfl, ?_, ?_, ?_, ?_⟩ <;>
    by_cases hr : env.account_root_type acct = some "Expense" <;>
      by_cases ht : 0 < doc.total_gain_loss <;>
        simp [gain_loss_gl, gain_loss_gl_base, hr, ht]

/-- Witness for C5 on the concrete environment and document. -/
theorem c5_witness :
    base_env.exchange_gain_loss_account = some "Exchange Gain Loss" ∧
    ∃ e, add_gain_loss_entries base_env base_doc [] = Except.ok ([] ++ [e]) ∧
      e.account = "Exchange Gain Loss" ∧
      e.account_currency = some base_doc.company_currency ∧
      (((base_env.account_root_type "Exchange Gain Loss" = some "Expense" ∧
          0 < base_doc.total_gain_loss) ∨
        (base_env.account_root_type "Exchange Gain Loss" ≠ some "Expense" ∧
          ¬ 0 < base_doc.total_gain_loss)) →
        e.credit = |base_doc.total_gain_loss| ∧
        e.credit_in_account_currency = |base_doc.total_gain_loss| ∧
        e.debit = 0 ∧ e.debit_in_account_currency = 0) ∧
      (((base_env.account_root_type "Exchange Gain Loss" = some "Expense" ∧
          ¬ 0 < base_doc.total_gain_loss) ∨
        (base_env.account_root_type "Exchange Gain Loss" ≠ some "Expense" ∧
          0 < base_doc.total_gain_loss)) →
        e.debit = |base_doc.total_gain_loss| ∧
        e.debit_in_account_currency = |base_doc.total_gain_loss| ∧
        e.credit = 0 ∧ e.credit_in_account_currency = 0) :=
  ⟨rfl, c5_add_gain_loss_entries base_env base_doc [] "Exchange Gain Loss" rfl⟩

/-- Folding `add_invoice_currency_exchange_rate` over currencies that are
distinct and absent from the table appends one record per currency. -/
theorem erp_foldl_add_rates (env : Env) (cs : List String) :
    ∀ d : AdjustmentEntry, cs.Nodup →
      (∀ c ∈ cs, ∀ r ∈ d.exchange_rates, r.currency ≠ c) →
      cs.foldl (fun d c => add_invoice_currency_exchange_rate env c d) d =
        { d with exchange_rates := d.exchange_rates ++ cs.map (fun c =>
            ⟨c, rate_or_one (env.get_exchange_rate c d.payment_currency),
              rate_or_one (env.get_exchange_rate c d.company_currency)⟩) } := by
  induction cs with
  | nil => intro d _ _; simp
  | cons c cs ih =>
    intro d hnd hdisj
    have hany : (d.exchange_rates.any (fun r => r.currency == c)) = false := by
      rw [List.any_eq_false]
      intro r hr
      simpa using hdisj c (List.mem_cons_self c cs) r hr
    have hstep : add_invoice_currency_exchange_rate env c d =
        { d with exchange_rates := d.exchange_rates ++
            [⟨c, rate_or_one (env.get_exchange_rate c d.payment_currency),
              rate_or_one (env.get_exchange_rate c d.company_currency)⟩] } := by
      unfold add_invoice_currency_exchange_rate
      rw [hany]
      simp
    rw [List.foldl_cons, hstep,
      ih _ (List.nodup_cons.mp hnd).2 ?_]
    · simp
    · intro c' hc' r hr
      rcases List.mem_append.mp hr with h | h
      · exact hdisj c' (List.mem_cons_of_mem c hc') r h
      · have hrc := List.mem_singleton.mp h
        subst hrc
        show c ≠ c'
        intro hcc
        exact (List.nodup_cons.mp hnd).1 (hcc ▸ hc')

/-- The currency list `get_exchange_rates` works through, and the resulting
table: one appended record per currency. -/
theorem erp_get_exchange_rates_eq (env : Env) (entries : List Invoice)
    (doc : AdjustmentEntry) :
    ∃ cs : List String, cs.Nodup ∧
      (∀ c, c ∈ cs ↔ (∃ e ∈ entries, e.currency = c) ∨ c = doc.payment_currency) ∧
      get_exchange_rates env entries doc =
        { doc with exchange_rates := cs.map (fun c =>
            ⟨c, rate_or_one (env.get_exchange_rate c doc.payment_currency),
              rate_or_one (env.get_exchange_rate c doc.company_currency)⟩) } := by
  have hnd : (if doc.payment_currency ∈ (entries.map (fun e => e.currency)).dedup
      then (entries.map (fun e => e.currency)).dedup
      else (entries.map (fun e => e.currency)).dedup ++ [doc.payment_currency]).Nodup := by
    split
    · exact List.nodup_dedup _
    · next hpc =>
      rw [List.nodup_append]
      exact ⟨List.nodup_dedup _, List.nodup_singleton _,
        fun a ha hb => hpc ((List.mem_singleton.mp hb) ▸ ha)⟩
  refine ⟨_, hnd, fun c => ?_, ?_⟩
  · constructor
    · intro hc
      split at hc
      · exact Or.inl (by simpa using List.mem_dedup.mp hc)
      · rcases List.mem_append.mp hc with h | h
        · exact Or.inl (by simpa using List.mem_dedup.mp h)
        · exact Or.inr (List.mem_singleton.mp h)
    · intro hc
      split
      · next hpc =>
        rcases hc with h | h
        · exact List.mem_dedup.mpr (by simpa using h)
        · rw [h]; exact hpc
      · next hpc =>
        rcases hc with h | h
        · exact List.mem_append.mpr (Or.inl (List.mem_dedup.mpr (by simpa using h)))
        · exact List.mem_append.mpr (Or.inr (by simp [h]))
  · simp only [get_exchange_rates]
    rw [erp_foldl_add_rates env _ _ hnd (by simp)]
    rfl

/-- Claim C6: after `get_exchange_rates(entries)` the table holds exactly one
record per distinct entry currency plus the payment currency, each record
carrying the rate to the payment currency and the rate to the company
currency with `1` as the default for a missing external rate; adding an
already-present currency leaves any table unchanged. -/
theorem c6_get_exchange_rates (env : Env) (entries : List Invoice)
    (doc : AdjustmentEntry) :
    ((get_exchange_rates env entries doc).exchange_rates.map
      (fun r => r.currency)).Nodup ∧
    (∀ c, (∃ r ∈ (get_exchange_rates env entries doc).exchange_rates, r.currency = c) ↔
      ((∃ e ∈ entries, e.currency = c) ∨ c = doc.payment_currency)) ∧
    (∀ r ∈ (get_exchange_rates env entries doc).exchange_rates,
      r.exchange_rate_to_payment_currency =
        rate_or_one (env.get_exchange_rate r.currency doc.payment_currency) ∧
      r.exchange_rate_to_base_currency =
        rate_or_one (env.get_exchange_rate r.currency doc.company_currency)) ∧
    (∀ (t : AdjustmentEntry) (c : String),
      (∃ r ∈ t.exchange_rates, r.currency = c) →
      add_invoice_currency_exchange_rate env c t = t) := by
  obtain ⟨cs, hnd, hmem, heq⟩ := erp_get_exchange_rates_eq env entries doc
  refine ⟨?_, fun c => ?_, fun r hr => ?_, fun t c hex => ?_⟩
  · rw [heq]
    simpa [List.map_map, Function.comp_def] using hnd
  · rw [heq]
    constructor
    · rintro ⟨r, hr, hrc⟩
      rcases List.mem_map.mp hr with ⟨c', hc', rfl⟩
      exact (hmem c).mp (hrc ▸ hc')
    · intro h
      exact ⟨_, List.mem_map.mpr ⟨c, (hmem c).mpr h, rfl⟩, rfl⟩
  · rw [heq] at hr
    rcases List.mem_map.mp hr with ⟨c', hc', rfl⟩
    exact ⟨rfl, rfl⟩
  · rcases hex with ⟨r, hr, hrc⟩
    have hany : (t.exchange_rates.any (fun x => x.currency == c)) = true :=
      List.any_eq_true.mpr ⟨r, hr, by simp [hrc]⟩
    unfold add_invoice_currency_exchange_rate
    rw [hany]
    simp

/-- Witness for C6: adding USD to a table already holding USD changes
nothing. -/
theorem c6_witness :
    add_invoice_currency_exchange_rate base_env "USD" c6w_doc = c6w_doc :=
  (c6_get_exchange_rates base_env [] base_doc).2.2.2 c6w_doc "USD"
    ⟨⟨"USD", 3, 4⟩, by decide, rfl⟩

/-- Recomputing totals does not touch the debit table. -/
theorem calculate_summary_totals_debit_entries (doc : AdjustmentEntry) :
    (calculate_summary_totals doc).debit_entries = doc.debit_entries := rfl

/-- Recomputing totals does not touch the credit table. -/
theorem calculate_summary_totals_credit_entries (doc : AdjustmentEntry) :
    (calculate_summary_totals doc).credit_entries = doc.credit_entries := rfl

/-- With the allocation flag off, every processed row gets a zero allocated
amount. -/
theorem allocate_rows_not_apa (side : Side) (pc : String)
    (rates : List ExchangeRateRecord) :
    ∀ (l : List ReferenceEntry) (rem : ℚ),
      ∀ e ∈ (allocate_rows false side pc rates rem l).1, e.allocated_amount = some 0 := by
  intro l
  induction l with
  | nil => intro rem e he; simp [allocate_rows] at he
  | cons a t ih =>
    intro rem e he
    simp only [allocate_rows] at he
    rcases List.mem_cons.mp he with h | h
    · rw [h]
      simp [recalculate_amounts_allocated]
    · exact ih rem e h

/-- With the allocation flag on and nonnegative outstanding amounts, the
allocated total of one table is the remainder capped by the table's own
outstanding total. -/
theorem allocate_rows_sum (side : Side) (pc : String)
    (rates : List ExchangeRateRecord) :
    ∀ (l : List ReferenceEntry) (rem : ℚ), 0 ≤ rem →
      (∀ e ∈ l, 0 ≤ e.voucher_payment_amount) →
      (((allocate_rows true side pc rates rem l).1).map
        (fun e => flt e.allocated_amount)).sum =
        min rem ((l.map (fun e => e.voucher_payment_amount)).sum) := by
  intro l
  induction l with
  | nil =>
    intro rem hrem _
    simp [allocate_rows, min_eq_right hrem]
  | cons a t ih =>
    intro rem hrem hvpa
    have hvpa_a : 0 ≤ a.voucher_payment_amount := hvpa a (List.mem_cons_self a t)
    have hvpa_t : ∀ e ∈ t, 0 ≤ e.voucher_payment_amount :=
      fun e he => hvpa e (List.mem_cons_of_mem a he)
    have hS : 0 ≤ (t.map (fun e => e.voucher_payment_amount)).sum :=
      List.sum_nonneg (by
        intro x hx
        rcases List.mem_map.mp hx with ⟨e, he, rfl⟩
        exact hvpa_t e he)
    by_cases h1 : rem > 0
    · by_cases h2 : a.voucher_payment_amount ≥ rem
      · have ihx := ih (rem - rem) (by linarith) hvpa_t
        simp only [allocate_rows, if_pos h1, if_pos h2, if_true, List.map_cons,
          List.sum_cons, recalculate_amounts_allocated] at ihx ⊢
        simp only [flt] at ihx ⊢
        rw [ihx]
        simp only [min_def]
        split_ifs <;> linarith
      · have ihx := ih (rem - a.voucher_payment_amount) (by linarith) hvpa_t
        simp only [allocate_rows, if_pos h1, if_neg h2, if_true, List.map_cons,
          List.sum_cons, recalculate_amounts_allocated] at ihx ⊢
        simp only [flt] at ihx ⊢
        rw [ihx]
        simp only [min_def]
        split_ifs <;> linarith
    · have ihx := ih (rem - 0) (by linarith) hvpa_t
      simp only [allocate_rows, if_neg h1, if_true, List.map_cons,
        List.sum_cons, recalculate_amounts_allocated] at ihx ⊢
      simp only [flt] at ihx ⊢
      rw [ihx]
      simp only [min_def]
      split_ifs <;> linarith

/-- With nonnegative outstanding amounts, each processed row's allocation is
at most its own outstanding amount. -/
theorem allocate_rows_le (side : Side) (pc : String)
    (rates : List ExchangeRateRecord) :
    ∀ (l : List ReferenceEntry) (rem : ℚ),
      (∀ e ∈ l, 0 ≤ e.voucher_payment_amount) →
      List.Forall₂ (fun e' e => flt e'.allocated_amount ≤ e.voucher_payment_amount)
        (allocate_rows true side pc rates rem l).1 l := by
  intro l
  induction l with
  | nil => intro rem _; simp [allocate_rows]
  | cons a t ih =>
    intro rem hvpa
    have hvpa_a : 0 ≤ a.voucher_payment_amount := hvpa a (List.mem_cons_self a t)
    have hvpa_t : ∀ e ∈ t, 0 ≤ e.voucher_payment_amount :=
      fun e he => hvpa e (List.mem_cons_of_mem a he)
    simp only [allocate_rows]
    refine List.Forall₂.cons ?_ (ih _ hvpa_t)
    simp only [recalculate_amounts_allocated, flt]
    by_cases h1 : rem > 0
    · by_cases h2 : a.voucher_payment_amount ≥ rem
      · simp only [if_pos h1, if_pos h2, if_true]
        exact h2
      · simp only [if_pos h1, if_neg h2, if_true]
        exact le_rfl
    · simp only [if_neg h1, if_true]
      exact hvpa_a

/-- Claim C3: with the allocation flag on and nonnegative outstanding
payment amounts, `allocate_amount_to_references` allocates on each side a
total equal to the minimum of the two sides' outstanding totals, each row
greedily receiving at most its own `voucher_payment_amount`; with the flag
off every row's allocated amount is set to zero. -/
theorem c3_allocate_amount_to_references (doc : AdjustmentEntry) :
    (doc.allocate_payment_amount = true →
      (∀ e ∈ doc.debit_entries ++ doc.credit_entries, 0 ≤ e.voucher_payment_amount) →
      (((allocate_amount_to_references doc).debit_entries.map
          (fun e => flt e.allocated_amount)).sum =
        min ((doc.debit_entries.map (fun e => e.voucher_payment_amount)).sum)
          ((doc.credit_entries.map (fun e => e.voucher_payment_amount)).sum) ∧
       ((allocate_amount_to_references doc).credit_entries.map
          (fun e => flt e.allocated_amount)).sum =
        min ((doc.debit_entries.map (fun e => e.voucher_payment_amount)).sum)
          ((doc.credit_entries.map (fun e => e.voucher_payment_amount)).sum)) ∧
      (List.Forall₂ (fun e' e => flt e'.allocated_amount ≤ e.voucher_payment_amount)
        (allocate_amount_to_references doc).debit_entries doc.debit_entries ∧
       List.Forall₂ (fun e' e => flt e'.allocated_amount ≤ e.voucher_payment_amount)
        (allocate_amount_to_references doc).credit_entries doc.credit_entries)) ∧
    (doc.allocate_payment_amount = false →
      ∀ e ∈ (allocate_amount_to_references doc).debit_entries ++
          (allocate_amount_to_references doc).credit_entries,
        e.allocated_amount = some 0) := by
  constructor
  · intro hapa hvpa
    have hd : ∀ e ∈ doc.debit_entries, 0 ≤ e.voucher_payment_amount :=
      fun e he => hvpa e (List.mem_append.mpr (Or.inl he))
    have hc : ∀ e ∈ doc.credit_entries, 0 ≤ e.voucher_payment_amount :=
      fun e he => hvpa e (List.mem_append.mpr (Or.inr he))
    have htd : 0 ≤ (doc.debit_entries.map (fun e => e.voucher_payment_amount)).sum :=
      List.sum_nonneg (by
        intro x hx
        rcases List.mem_map.mp hx with ⟨e, he, rfl⟩
        exact hd e he)
    have htc : 0 ≤ (doc.credit_entries.map (fun e => e.voucher_payment_amount)).sum :=
      List.sum_nonneg (by
        intro x hx
        rcases List.mem_map.mp hx with ⟨e, he, rfl⟩
        exact hc e he)
    have hm : 0 ≤ min ((doc.debit_entries.map (fun e => e.voucher_payment_amount)).sum)
        ((doc.credit_entries.map (fun e => e.voucher_payment_amount)).sum) :=
      le_min htd htc
    constructor
    · constructor
      · simp only [allocate_amount_to_references, hapa,
          calculate_summary_totals_debit_entries]
        rw [allocate_rows_sum Side.debit doc.payment_currency doc.exchange_rates
          doc.debit_entries _ hm hd]
        exact min_eq_left (min_le_left _ _)
      · simp only [allocate_amount_to_references, hapa,
          calculate_summary_totals_credit_entries]
        rw [allocate_rows_sum Side.credit doc.payment_currency doc.exchange_rates
          doc.credit_entries _ hm hc]
        exact min_eq_left (min_le_right _ _)
    · constructor
      · simp only [allocate_amount_to_references, hapa,
          calculate_summary_totals_debit_entries]
        exact allocate_rows_le Side.debit doc.payment_currency doc.exchange_rates
          doc.debit_entries _ hd
      · simp only [allocate_amount_to_references, hapa,
          calculate_summary_totals_credit_entries]
        exact allocate_rows_le Side.credit doc.payment_currency doc.exchange_rates
          doc.credit_entries _ hc
  · intro hapa e he
    simp only [allocate_amount_to_references, hapa,
      calculate_summary_totals_debit_entries,
      calculate_summary_totals_credit_entries] at he
    rcases List.mem_append.mp he with h | h
    · exact allocate_rows_not_apa Side.debit doc.payment_currency doc.exchange_rates
        doc.debit_entries _ e h
    · exact allocate_rows_not_apa Side.credit doc.payment_currency doc.exchange_rates
        doc.credit_entries _ e h

/-- Witness for C3: 12 outstanding against 4 allocates 4 on each side. -/
theorem c3_witness :
    c3w_doc.allocate_payment_amount = true ∧
    (∀ e ∈ c3w_doc.debit_entries ++ c3w_doc.credit_entries,
      0 ≤ e.voucher_payment_amount) ∧
    ((((allocate_amount_to_references c3w_doc).debit_entries.map
        (fun e => flt e.allocated_amount)).sum =
      min ((c3w_doc.debit_entries.map (fun e => e.voucher_payment_amount)).sum)
        ((c3w_doc.credit_entries.map (fun e => e.voucher_payment_amount)).sum) ∧
     ((allocate_amount_to_references c3w_doc).credit_entries.map
        (fun e => flt e.allocated_amount)).sum =
      min ((c3w_doc.debit_entries.map (fun e => e.voucher_payment_amount)).sum)
        ((c3w_doc.credit_entries.map (fun e => e.voucher_payment_amount)).sum)) ∧
    (List.Forall₂ (fun e' e => flt e'.allocated_amount ≤ e.voucher_payment_amount)
      (allocate_amount_to_references c3w_doc).debit_entries c3w_doc.debit_entries ∧
     List.Forall₂ (fun e' e => flt e'.allocated_amount ≤ e.voucher_payment_amount)
      (allocate_amount_to_references c3w_doc).credit_entries c3w_doc.credit_entries)) :=
  ⟨rfl, by decide, (c3_allocate_amount_to_references c3w_doc).1 rfl (by decide)⟩

/-- A reference-row loop that succeeds passed every row's checks. -/
theorem validate_reference_rows_ok (env : Env) (doc : AdjustmentEntry) :
    ∀ l : List ReferenceEntry, validate_reference_rows env doc l = Except.ok () →
      ∀ e ∈ l, reference_row_check env doc e = Except.ok () := by
  intro l
  induction l with
  | nil => intro _ e he; exact absurd he (List.not_mem_nil e)
  | cons a t ih =>
    intro h e he
    simp only [validate_reference_rows] at h
    cases hc : reference_row_check env doc a with
    | error err => rw [hc] at h; exact Except.noConfusion h
    | ok u =>
      rw [hc] at h
      rcases List.mem_cons.mp he with rfl | hmem
      · cases u; exact hc
      · exact ih h e hmem

/-- An over-allocated row never passes its checks. -/
theorem reference_row_check_bad (env : Env) (doc : AdjustmentEntry)
    (e : ReferenceEntry)
    (h : 0 < flt e.allocated_amount ∧
      e.voucher_payment_amount < flt e.allocated_amount) :
    reference_row_check env doc e ≠ Except.ok () := by
  intro hok
  unfold reference_row_check at hok
  rw [if_pos h] at hok
  repeat
    first
    | exact Except.noConfusion hok
    | split at hok

/-- Claim C9: `validate` raises whenever some reference row's positive
allocated amount exceeds its outstanding payment amount, and a successful
`validate` leaves only rows with a nonzero, non-empty allocated amount. -/
theorem c9_validate (env : Env) (doc : AdjustmentEntry) :
    ((∃ e ∈ doc.debit_entries ++ doc.credit_entries,
        0 < flt e.allocated_amount ∧
        e.voucher_payment_amount < flt e.allocated_amount) →
      ∃ err, validate env doc = Except.error err) ∧
    (∀ d, validate env doc = Except.ok d →
      ∀ e ∈ d.debit_entries ++ d.credit_entries,
        e.allocated_amount ≠ some 0 ∧ e.allocated_amount ≠ none) := by
  constructor
  · rintro ⟨e, he, hbad⟩
    unfold validate
    cases h1 : validate_customer_supplier_account doc with
    | error err => exact ⟨err, rfl⟩
    | ok u =>
      cases h2 : validate_reference_documents env doc with
      | error err => exact ⟨err, rfl⟩
      | ok v =>
        exfalso
        cases v
        exact reference_row_check_bad env doc e hbad
          (validate_reference_rows_ok env doc
            (doc.debit_entries ++ doc.credit_entries) h2 e he)
  · intro d hd e he
    unfold validate at hd
    cases h1 : validate_customer_supplier_account doc with
    | error err => rw [h1] at hd; exact Except.noConfusion hd
    | ok u =>
      rw [h1] at hd
      cases h2 : validate_reference_documents env doc with
      | error err => rw [h2] at hd; exact Except.noConfusion hd
      | ok v =>
        rw [h2] at hd
        injection hd with hdd
        rw [← hdd] at he
        have hkeep : ∀ x : ReferenceEntry,
            decide (¬ (x.allocated_amount = some 0 ∨ x.allocated_amount = none)) = true →
            x.allocated_amount ≠ some 0 ∧ x.allocated_amount ≠ none := by
          intro x hx
          have hnot := of_decide_eq_true hx
          exact ⟨fun hA => hnot (Or.inl hA), fun hB => hnot (Or.inr hB)⟩
        rcases List.mem_append.mp he with h | h
        · exact hkeep e (List.mem_filter.mp h).2
        · exact hkeep e (List.mem_filter.mp h).2

/-- Witness for C9 on the document with an over-allocated row. -/
theorem c9_witness :
    (∃ e ∈ c9w_doc.debit_entries ++ c9w_doc.credit_entries,
      0 < flt e.allocated_amount ∧
      e.voucher_payment_amount < flt e.allocated_amount) ∧
    ∃ err, validate base_env c9w_doc = Except.error err :=
  ⟨by decide, (c9_validate base_env c9w_doc).1 (by decide)⟩

/-- Claim C7: a successful `get_unreconciled_entries` is exactly the staged
pipeline of the spec: fetch the outstanding entries, then compute the
exchange rates of every fetched currency, then populate the reference
tables, then compute the summary totals.  No ledger entry is produced
(`GLEntry` lists arise only from `make_gl_entries` at submission). -/
theorem c7_get_unreconciled_entries (env : Env) (doc : AdjustmentEntry)
    (d : AdjustmentEntry)
    (h : get_unreconciled_entries env doc = Except.ok d) :
    d = pipeline_spec env { doc with allocate_payment_amount := false } := by
  simp only [get_unreconciled_entries] at h
  cases hm : check_mandatory_to_fetch { doc with allocate_payment_amount := false } with
  | error err => rw [hm] at h; exact Except.noConfusion h
  | ok u =>
    rw [hm] at h
    injection h with hh
    rw [← hh]
    rfl

/-- Witness for C7: on the concrete environment the fetch succeeds and the
result is the staged pipeline's output. -/
theorem c7_witness :
    ∃ d, get_unreconciled_entries base_env base_doc = Except.ok d ∧
      d = pipeline_spec base_env { base_doc with allocate_payment_amount := false } :=
  ⟨_, by rfl, c7_get_unreconciled_entries base_env base_doc _ (by rfl)⟩

/-- Claim C1 (amended): for a fully recalculated document whose summary
totals are up to date, whose `difference_amount` is zero, and whose exchange
gain/loss account has root type Expense, the ledger entries produced by
`make_gl_entries` balance: the company-currency debits equal the credits. -/
theorem c1_make_gl_entries_balanced (env : Env) (doc : AdjustmentEntry)
    (acct : String)
    (hacct : env.exchange_gain_loss_account = some acct)
    (hroot : env.account_root_type acct = some "Expense")
    (hcoh : RecalcCoherent doc)
    (hfix : calculate_summary_totals doc = doc)
    (hdiff : doc.difference_amount = 0) :
    ∃ l, make_gl_entries env doc = Except.ok l ∧
      gl_debit_total l = gl_credit_total l := by
  have hra : doc.difference_amount =
      |(doc.debit_entries.map (fun e => flt e.allocated_amount)).sum -
        (doc.credit_entries.map (fun e => flt e.allocated_amount)).sum| := by
    rw [← hfix]
    rfl
  have hsums : (doc.debit_entries.map (fun e => flt e.allocated_amount)).sum =
      (doc.credit_entries.map (fun e => flt e.allocated_amount)).sum :=
    sub_eq_zero.mp (abs_eq_zero.mp (hra.symm.trans hdiff))
  have htgl : doc.total_gain_loss =
      (doc.debit_entries.map (fun e => e.gain_loss_amount)).sum +
      (doc.credit_entries.map (fun e => e.gain_loss_amount)).sum := by
    rw [← hfix]
    rfl
  have hD : ∀ e ∈ doc.debit_entries, e.gain_loss_amount =
      flt e.allocated_amount *
        (find_rate doc.exchange_rates doc.payment_currency).exchange_rate_to_base_currency -
      flt e.allocated_amount / e.payment_exchange_rate * e.exchange_rate := by
    intro e he
    have h1 := hcoh.1 e he
    have hp : e.payment_exchange_rate =
        (find_rate doc.exchange_rates e.currency).exchange_rate_to_payment_currency :=
      (congrArg ReferenceEntry.payment_exchange_rate h1).trans rfl
    have hg : e.gain_loss_amount =
        flt e.allocated_amount *
          (find_rate doc.exchange_rates doc.payment_currency).exchange_rate_to_base_currency -
        flt e.allocated_amount /
          (find_rate doc.exchange_rates e.currency).exchange_rate_to_payment_currency *
          e.exchange_rate :=
      (congrArg ReferenceEntry.gain_loss_amount h1).trans rfl
    rw [hg, ← hp]
  have hC : ∀ e ∈ doc.credit_entries, e.gain_loss_amount =
      flt e.allocated_amount / e.payment_exchange_rate * e.exchange_rate -
      flt e.allocated_amount *
        (find_rate doc.exchange_rates doc.payment_currency).exchange_rate_to_base_currency := by
    intro e he
    have h1 := hcoh.2 e he
    have hp : e.payment_exchange_rate =
        (find_rate doc.exchange_rates e.currency).exchange_rate_to_payment_currency :=
      (congrArg ReferenceEntry.payment_exchange_rate h1).trans rfl
    have hg : e.gain_loss_amount =
        flt e.allocated_amount /
          (find_rate doc.exchange_rates e.currency).exchange_rate_to_payment_currency *
          e.exchange_rate -
        flt e.allocated_amount *
          (find_rate doc.exchange_rates doc.payment_currency).exchange_rate_to_base_currency :=
      (congrArg ReferenceEntry.gain_loss_amount h1).trans rfl
    rw [hg, ← hp]
  have hsumD := erp_sum_map_congr doc.debit_entries (fun e => e.gain_loss_amount)
    (fun e => flt e.allocated_amount *
        (find_rate doc.exchange_rates doc.payment_currency).exchange_rate_to_base_currency -
      flt e.allocated_amount / e.payment_exchange_rate * e.exchange_rate) hD
  rw [erp_sum_map_sub, erp_sum_map_mulr] at hsumD
  have hsumC := erp_sum_map_congr doc.credit_entries (fun e => e.gain_loss_amount)
    (fun e => flt e.allocated_amount / e.payment_exchange_rate * e.exchange_rate -
      flt e.allocated_amount *
        (find_rate doc.exchange_rates doc.payment_currency).exchange_rate_to_base_currency) hC
  rw [erp_sum_map_sub, erp_sum_map_mulr] at hsumC
  have htgl2 : doc.total_gain_loss =
      (doc.credit_entries.map
        (fun e => flt e.allocated_amount / e.payment_exchange_rate * e.exchange_rate)).sum -
      (doc.debit_entries.map
        (fun e => flt e.allocated_amount / e.payment_exchange_rate * e.exchange_rate)).sum := by
    rw [htgl, hsumD, hsumC, hsums]
    ring
  have happ_d : ∀ (L : List GLEntry) (x : GLEntry),
      gl_debit_total (L ++ [x]) = gl_debit_total L + x.debit := by
    intro L x
    unfold gl_debit_total
    rw [List.map_append, List.sum_append]
    simp
  have happ_c : ∀ (L : List GLEntry) (x : GLEntry),
      gl_credit_total (L ++ [x]) = gl_credit_total L + x.credit := by
    intro L x
    unfold gl_credit_total
    rw [List.map_append, List.sum_append]
    simp
  have hpd : gl_debit_total (add_party_gl_entries doc []) =
      (doc.credit_entries.map
        (fun e => flt e.allocated_amount / e.payment_exchange_rate * e.exchange_rate)).sum := by
    unfold gl_debit_total add_party_gl_entries
    rw [List.nil_append, List.map_append, List.sum_append, List.map_map, List.map_map]
    rw [erp_sum_map_congr doc.debit_entries
        ((fun e : GLEntry => e.debit) ∘ party_gl doc Side.debit) (fun _ => (0 : ℚ)) (fun e _ => rfl),
      erp_sum_map_zero,
      erp_sum_map_congr doc.credit_entries
        ((fun e : GLEntry => e.debit) ∘ party_gl doc Side.credit)
        (fun e => flt e.allocated_amount / e.payment_exchange_rate * e.exchange_rate)
        (fun e _ => rfl)]
    ring
  have hpc : gl_credit_total (add_party_gl_entries doc []) =
      (doc.debit_entries.map
        (fun e => flt e.allocated_amount / e.payment_exchange_rate * e.exchange_rate)).sum := by
    unfold gl_credit_total add_party_gl_entries
    rw [List.nil_append, List.map_append, List.sum_append, List.map_map, List.map_map]
    rw [erp_sum_map_congr doc.debit_entries
        ((fun e : GLEntry => e.credit) ∘ party_gl doc Side.debit)
        (fun e => flt e.allocated_amount / e.payment_exchange_rate * e.exchange_rate)
        (fun e _ => rfl),
      erp_sum_map_congr doc.credit_entries
        ((fun e : GLEntry => e.credit) ∘ party_gl doc Side.credit) (fun _ => (0 : ℚ)) (fun e _ => rfl),
      erp_sum_map_zero]
    ring
  unfold make_gl_entries add_gain_loss_entries
  rw [hacct]
  refine ⟨_, rfl, ?_⟩
  rw [happ_d, happ_c, hpd, hpc]
  unfold gain_loss_gl
  rw [if_pos hroot]
  by_cases ht : doc.total_gain_loss > 0
  · rw [if_pos ht]
    show (doc.credit_entries.map
        (fun e => flt e.allocated_amount / e.payment_exchange_rate * e.exchange_rate)).sum +
        (0 : ℚ) =
      (doc.debit_entries.map
        (fun e => flt e.allocated_amount / e.payment_exchange_rate * e.exchange_rate)).sum +
        |doc.total_gain_loss|
    rw [abs_of_pos ht]
    linarith [htgl2]
  · rw [if_neg ht]
    show (doc.credit_entries.map
        (fun e => flt e.allocated_amount / e.payment_exchange_rate * e.exchange_rate)).sum +
        |doc.total_gain_loss| =
      (doc.debit_entries.map
        (fun e => flt e.allocated_amount / e.payment_exchange_rate * e.exchange_rate)).sum +
        (0 : ℚ)
    rw [abs_of_nonpos (not_lt.mp ht)]
    linarith [htgl2]

/-- Witness for C1 on the balanced single-currency document. -/
theorem c1_witness :
    base_env.exchange_gain_loss_account = some "Exchange Gain Loss" ∧
    base_env.account_root_type "Exchange Gain Loss" = some "Expense" ∧
    RecalcCoherent c1w_doc ∧
    calculate_summary_totals c1w_doc = c1w_doc ∧
    c1w_doc.difference_amount = 0 ∧
    ∃ l, make_gl_entries base_env c1w_doc = Except.ok l ∧
      gl_debit_total l = gl_credit_total l := by
  have hcoh : RecalcCoherent c1w_doc := by
    constructor <;>
      · intro e he
        simp only [c1w_doc] at he
        rw [List.mem_singleton] at he
        subst he
        simp [recalculate_amounts, find_rate, flt, c1w_doc, c1w_debit, c1w_credit,
          base_doc, base_ref, blank_reference]
  have hfix : calculate_summary_totals c1w_doc = c1w_doc := by
    simp only [calculate_summary_totals, c1w_doc, c1w_debit, c1w_credit, base_doc,
      base_ref, blank_reference, List.map_cons, List.map_nil, List.sum_cons,
      List.sum_nil, flt]
    norm_num
  have hdiff : c1w_doc.difference_amount = 0 := rfl
  exact ⟨rfl, rfl, hcoh, hfix, hdiff,
    c1_make_gl_entries_balanced base_env c1w_doc "Exchange Gain Loss" rfl rfl
      hcoh hfix hdiff⟩

/-- Counterexample to claim C1 as stated: a fully recalculated document with
zero difference amount but a nonzero total gain/loss posts unbalanced ledger
entries when the exchange gain/loss account's root type is not Expense (the
posting side flips with the root type, so the balance needs the Expense
convention). -/
theorem c1_counterexample :
    RecalcCoherent c1x_doc ∧
    calculate_summary_totals c1x_doc = c1x_doc ∧
    c1x_doc.difference_amount = 0 ∧
    c1x_env.exchange_gain_loss_account = some "Exchange Gain Loss" ∧
    ∃ l, make_gl_entries c1x_env c1x_doc = Except.ok l ∧
      gl_debit_total l ≠ gl_credit_total l := by
  refine ⟨⟨?_, ?_⟩, ?_, rfl, rfl, _, rfl, ?_⟩
  · intro e he
    simp only [c1x_doc] at he
    rw [List.mem_singleton] at he
    subst he
    simp [recalculate_amounts, find_rate, flt, c1x_doc, c1x_debit, c1x_rates,
      base_doc, base_ref, blank_reference]
    try norm_num
  · intro e he
    simp only [c1x_doc] at he
    rw [List.mem_singleton] at he
    subst he
    simp [recalculate_amounts, find_rate, flt, c1x_doc, c1x_credit, c1x_rates,
      base_doc, base_ref, blank_reference]
    try norm_num
  · simp only [calculate_summary_totals, c1x_doc, c1x_debit, c1x_credit, base_doc,
      base_ref, blank_reference, List.map_cons, List.map_nil, List.sum_cons,
      List.sum_nil, flt]
    norm_num
  · simp [gl_debit_total, gl_credit_total, add_party_gl_entries, party_gl,
      party_details, gain_loss_gl, gain_loss_gl_base, make_gl_entries,
      add_gain_loss_entries, c1x_env, c1x_doc, c1x_debit, c1x_credit, c1x_rates,
      base_env, base_doc, base_ref, blank_reference, flt, find_rate]
    norm_num

end Erpnext
